import Mathlib

/-!
Shallow embedding of the cabin-booking backend's booking routes
(`app/routes/bookings.py` together with the data model of `app/models.py`).

Time is modelled in whole minutes: a `datetime` value is an absolute number
of minutes (`day * 1440 + minuteOfDay`), a `datetime.time` value is a number
of minutes after midnight, and a `datetime.date` value is the day number
`t / 1440`.  The `"%Y-%m-%d %H:%M"` formatting/parsing used by the source is
injective on whole minutes, so slot strings are represented by their minute
value and day-key strings by their day number.
-/

namespace CabinBooking

/-- `fastapi.HTTPException`: status code and detail string. -/
structure Err where
  status_code : Nat
  detail : String
deriving Repr, DecidableEq

/-- `models.Cabin` (app/models.py).  `start_time`/`end_time` are minutes
after midnight; `restricted_times` keeps the raw strings of the source. -/
structure Cabin where
  id : Nat
  name : String
  description : String
  slot_duration : Nat
  start_time : Nat
  end_time : Nat
  max_bookings_per_day : Nat
  restricted_times : List String
deriving Repr, DecidableEq

/-- `models.Booking` (app/models.py).  `slot_time` is absolute minutes;
`status` keeps the string representation of the source ("Active" /
"Cancelled").  `duration` is an `Int` since the source never checks sign. -/
structure Booking where
  id : Nat
  user_id : Nat
  cabin_id : Nat
  slot_time : Nat
  duration : Int
  status : String
deriving Repr, DecidableEq

/-- The booking-relevant database state: the cabins and bookings tables and
the next autoincrement id for bookings. -/
structure DB where
  cabins : List Cabin
  bookings : List Booking
  next_booking_id : Nat
deriving Repr, DecidableEq

/-- `schemas.BookingCreate` (app/schemas.py). -/
structure BookingCreate where
  cabin_id : Nat
  slot_time : Nat
  duration : Int
deriving Repr, DecidableEq

/-- The body of the slot-generation while-loop of `list_available_slots`
(bookings.py lines 92-108), one fuel unit per iteration.  `acts` is the list
of `slot_time`s of the active bookings fetched for the cabin; the loop skips
a slot that is not in the future of `nowAbs` when the day is today, skips a
slot whose start time equals an active booking's `slot_time`, and otherwise
emits the slot start.  The cursor advances by `step` minutes each iteration. -/
def daySlotsGo (acts : List Nat) (nowAbs : Nat) (isToday : Bool)
    (step endt : Nat) : Nat → Nat → List Nat
  | _, 0 => []
  | cur, fuel + 1 =>
    if cur < endt then
      if isToday = true ∧ cur ≤ nowAbs then
        daySlotsGo acts nowAbs isToday step endt (cur + step) fuel
      else if cur ∈ acts then
        daySlotsGo acts nowAbs isToday step endt (cur + step) fuel
      else
        cur :: daySlotsGo acts nowAbs isToday step endt (cur + step) fuel
    else []

/-- The slot list one day's while-loop produces, entered at cursor `cur` with
day end `endt`.  `endt - cur` fuel suffices because every iteration advances
the cursor by `step ≥ 1`.  The source's loop does not terminate when
`slot_duration ≤ 0` (the cursor never moves); that degenerate case, which no
claim exercises, is modelled as the empty slot list. -/
def daySlots (acts : List Nat) (nowAbs : Nat) (isToday : Bool)
    (cur endt step : Nat) : List Nat :=
  if 0 < step then daySlotsGo acts nowAbs isToday step endt cur (endt - cur) else []

/-- The filter of bookings.py lines 76-81: Active bookings of the cabin with
`slot_time` between now and now + 1 day (inclusive on both ends). -/
def activeWindow (cabin_id nowAbs : Nat) (b : Booking) : Bool :=
  decide (b.cabin_id = cabin_id ∧ b.status = "Active" ∧
    nowAbs ≤ b.slot_time ∧ b.slot_time ≤ nowAbs + 1440)

/-- The `slot_time`s of the fetched active bookings, the values the booked
check of the while-loop compares the cursor against. -/
def activeTimes (bookings : List Booking) (cabin_id nowAbs : Nat) : List Nat :=
  (bookings.filter (activeWindow cabin_id nowAbs)).map (fun b => b.slot_time)

/-- The two-day availability map of `list_available_slots` (bookings.py lines
76-111): for each of today and tomorrow, the day number paired with the slot
starts the while-loop emits.  `datetime.combine(day, t)` is `day * 1440 + t`. -/
def availCore (cabin : Cabin) (bookings : List Booking) (nowAbs cabin_id : Nat) :
    List (Nat × List Nat) :=
  (List.range 2).map (fun day_offset =>
    let day := (nowAbs + day_offset * 1440) / 1440
    (day, daySlots (activeTimes bookings cabin_id nowAbs) nowAbs
      (decide (day = nowAbs / 1440))
      (day * 1440 + cabin.start_time) (day * 1440 + cabin.end_time)
      cabin.slot_duration))

/-- The response of `list_available_slots`: cabin name and the per-day map
(dict keys in insertion order: today then tomorrow). -/
structure AvailOut where
  cabin_name : String
  available_slots : List (Nat × List Nat)
deriving Repr, DecidableEq

/-- `GET /bookings/{cabin_id}/available-slots` (bookings.py lines 69-116). -/
def list_available_slots (db : DB) (nowAbs cabin_id : Nat) : Except Err AvailOut :=
  match db.cabins.find? (fun c => decide (c.id = cabin_id)) with
  | none => .error ⟨404, "Cabin not found"⟩
  | some cabin => .ok ⟨cabin.name, availCore cabin db.bookings nowAbs cabin_id⟩

/-- `POST /bookings/` (bookings.py lines 14-46): cabin-exists check, 7-day
horizon check on the slot's date, then the count of Active bookings at the
exact (cabin, slot_time) against `max_bookings_per_day`, then insert. -/
def book_cabin (db : DB) (nowAbs current_user : Nat) (booking : BookingCreate) :
    Except Err (DB × Booking) :=
  match db.cabins.find? (fun c => decide (c.id = booking.cabin_id)) with
  | none => .error ⟨404, "Cabin not found"⟩
  | some cabin =>
    if (nowAbs + 7 * 1440) / 1440 < booking.slot_time / 1440 then
      .error ⟨400, "You can only book for the next 7 days"⟩
    else
      let overlapping_bookings := (db.bookings.filter (fun b =>
        decide (b.cabin_id = booking.cabin_id ∧ b.slot_time = booking.slot_time ∧
          b.status = "Active"))).length
      if cabin.max_bookings_per_day ≤ overlapping_bookings then
        .error ⟨403, "This cabin is fully booked for the selected slot"⟩
      else
        let new_booking : Booking :=
          ⟨db.next_booking_id, current_user, booking.cabin_id, booking.slot_time,
            booking.duration, "Active"⟩
        .ok (⟨db.cabins, db.bookings ++ [new_booking], db.next_booking_id + 1⟩,
          new_booking)

/-- The response of `GET /bookings/` (bookings.py lines 49-65). -/
structure UserBookingsOut where
  active_bookings : List Booking
  past_bookings : List Booking
deriving Repr, DecidableEq

/-- `GET /bookings/` (bookings.py lines 49-65): the user's Active bookings
with `slot_time ≥ now`, and the user's bookings with `slot_time < now`
regardless of status.  (`GET /bookings/my-bookings`, lines 183-231, applies
the same two filters and additionally joins each row with its cabin's name.) -/
def list_user_bookings (db : DB) (nowAbs current_user : Nat) : UserBookingsOut :=
  ⟨db.bookings.filter (fun b =>
      decide (b.user_id = current_user ∧ b.status = "Active" ∧ nowAbs ≤ b.slot_time)),
   db.bookings.filter (fun b =>
      decide (b.user_id = current_user ∧ b.slot_time < nowAbs))⟩

/-- The `selected_slot` value of the `book-selected-slot` JSON payload as the
route observes it: absent (or falsy), present but not parseable by
`strptime(_, "%Y-%m-%d %H:%M")`, or parsed to an absolute minute. -/
inductive SlotField
  | missing
  | malformed
  | time (t : Nat)
deriving Repr, DecidableEq

/-- The untyped dict payload of `book_selected_slot`, restricted to the keys
a request can carry that matter here: the `selected_slot` field the route
reads, and a possible `duration` entry, which the route never reads. -/
structure SlotPayload where
  selected_slot : SlotField
  duration : Option Int
deriving Repr, DecidableEq

/-- The `booking_details` object of a successful `book_selected_slot`. -/
structure BookingDetails where
  cabin : String
  slot_time : Nat
  duration : Nat
deriving Repr, DecidableEq

/-- `POST /bookings/{cabin_id}/book-selected-slot` (bookings.py lines
121-179): missing-field check, cabin-exists check, parse, today-or-tomorrow
check on the date, active-hours check on the time of day, membership of the
slot in the day's list of `list_available_slots`, then insert with the
cabin's fixed `slot_duration` as the duration. -/
def book_selected_slot (db : DB) (nowAbs current_user cabin_id : Nat)
    (booking_data : SlotPayload) : Except Err (DB × BookingDetails) :=
  if booking_data.selected_slot = .missing then
    .error ⟨400, "Selected slot is required"⟩
  else
    match db.cabins.find? (fun c => decide (c.id = cabin_id)) with
    | none => .error ⟨404, "Cabin not found"⟩
    | some cabin =>
      match booking_data.selected_slot with
      | .missing => .error ⟨400, "Selected slot is required"⟩
      | .malformed => .error ⟨400, "Invalid slot time format. Use 'YYYY-MM-DD HH:MM'"⟩
      | .time slot_time =>
        if ¬ (nowAbs / 1440 ≤ slot_time / 1440 ∧
            slot_time / 1440 ≤ (nowAbs + 1440) / 1440) then
          .error ⟨400, "You can only book slots for today or tomorrow"⟩
        else if slot_time % 1440 < cabin.start_time ∨
            cabin.end_time ≤ slot_time % 1440 then
          .error ⟨400, "Slot time must be within cabin's active hours"⟩
        else
          match list_available_slots db nowAbs cabin_id with
          | .error e => .error e
          | .ok out =>
            match out.available_slots.find? (fun p => decide (p.1 = slot_time / 1440)) with
            | none => .error ⟨400, "Selected slot is not available"⟩
            | some p =>
              if slot_time ∈ p.2 then
                let new_booking : Booking :=
                  ⟨db.next_booking_id, current_user, cabin_id, slot_time,
                    (cabin.slot_duration : Int), "Active"⟩
                .ok (⟨db.cabins, db.bookings ++ [new_booking], db.next_booking_id + 1⟩,
                  ⟨cabin.name, slot_time, cabin.slot_duration⟩)
              else .error ⟨400, "Selected slot is not available"⟩

/-- The row filter of `cancel_user_booking` (bookings.py lines 241-245). -/
def cancelMatch (current_user booking_id : Nat) (b : Booking) : Bool :=
  decide (b.id = booking_id ∧ b.user_id = current_user ∧ b.status = "Active")

/-- The ORM row mutation `booking.status = "Cancelled"`: the first row the
query would return gets its status set, the rest are unchanged. -/
def setCancelledFirst (current_user booking_id : Nat) : List Booking → List Booking
  | [] => []
  | b :: bs =>
    if cancelMatch current_user booking_id b then
      { b with status := "Cancelled" } :: bs
    else b :: setCancelledFirst current_user booking_id bs

/-- `DELETE /bookings/{booking_id}/cancel` (bookings.py lines 235-253). -/
def cancel_user_booking (db : DB) (current_user booking_id : Nat) :
    Except Err (DB × String) :=
  match db.bookings.find? (cancelMatch current_user booking_id) with
  | none => .error ⟨404, "Booking not found or already cancelled"⟩
  | some _ =>
    .ok (⟨db.cabins, setCancelledFirst current_user booking_id db.bookings,
      db.next_booking_id⟩,
      "Your booking has been cancelled successfully")

/-- Overwrite every cabin's `restricted_times` with `rts`, leaving all other
state alone (used to state that the booking routes never read the field). -/
def withRestricted (rts : List String) (db : DB) : DB :=
  ⟨db.cabins.map (fun c => { c with restricted_times := rts }),
   db.bookings, db.next_booking_id⟩

/-- The slot list an availability response carries for day `d` (empty when
the response is an error or the day is absent). -/
def slotsOnDay (r : Except Err AvailOut) (d : Nat) : List Nat :=
  match r with
  | .error _ => []
  | .ok out => ((out.available_slots.find? (fun p => decide (p.1 = d))).map
      (fun p => p.2)).getD []

/-! Concrete states used by the counterexamples and witnesses below.  All
cabins keep the model's defaults except where a scenario needs otherwise:
hours 09:00-19:00 are minutes 540-1140, a slot is 30 minutes. -/

/-- A cabin whose `max_bookings_per_day` is 2, as an administrator may
configure through `CabinCreate` (app/schemas.py, app/routes/cabins.py). -/
def c1Cabin : Cabin := ⟨2, "B", "", 30, 540, 1140, 2, []⟩

/-- An Active booking of cabin 2 at minute 600 (day 0, 10:00). -/
def c1Booking : Booking := ⟨1, 1, 2, 600, 30, "Active"⟩

def c1DB : DB := ⟨[c1Cabin], [c1Booking], 2⟩

def c1wCabin : Cabin := ⟨1, "A", "", 30, 540, 1140, 1, []⟩

def c1wBooking : Booking := ⟨1, 3, 1, 600, 30, "Active"⟩

def c1wDB : DB := ⟨[c1wCabin], [c1wBooking], 2⟩

def c2CabinA : Cabin := ⟨1, "A", "", 30, 540, 1140, 1, []⟩

def c2CabinB : Cabin := ⟨2, "B", "", 30, 540, 1140, 1, []⟩

/-- User 5 already holds this Active booking of cabin 1 on day 0. -/
def c2Booking : Booking := ⟨1, 5, 1, 600, 30, "Active"⟩

def c2DB : DB := ⟨[c2CabinA, c2CabinB], [c2Booking], 2⟩

/-- A cabin with the restricted window "13:00-14:00" of Scenario B. -/
def c3Cabin : Cabin := ⟨3, "C", "", 30, 540, 1140, 1, ["13:00-14:00"]⟩

def c3DB : DB := ⟨[c3Cabin], [], 1⟩

/-- A cabin open 09:00-10:15 (minutes 540-615): 75 minutes of hours, two
full 30-minute slots and a 15-minute remainder. -/
def c4Cabin : Cabin := ⟨1, "A", "", 30, 540, 615, 1, []⟩

def c4DB : DB := ⟨[c4Cabin], [], 1⟩

def c5Cabin : Cabin := ⟨1, "A", "", 30, 540, 1140, 1, []⟩

def c5DB : DB := ⟨[c5Cabin], [], 1⟩

def c5wCabin : Cabin := ⟨1, "A", "", 30, 540, 600, 1, []⟩

def c5wDB : DB := ⟨[c5wCabin], [], 1⟩

def c6Cabin : Cabin := ⟨1, "A", "", 30, 540, 1140, 1, []⟩

def c7Cabin : Cabin := ⟨1, "A", "", 30, 540, 1140, 1, []⟩

def c7DB : DB := ⟨[c7Cabin], [], 1⟩

def c7wCabin : Cabin := ⟨1, "A", "", 30, 540, 1140, 1, []⟩

def c7wDB : DB := ⟨[c7wCabin], [], 1⟩

/-- A Cancelled booking of user 5 whose `slot_time` is in the future of
the instant 0 used by the C8 witness. -/
def c8Booking : Booking := ⟨1, 5, 1, 600, 30, "Cancelled"⟩

def c8DB : DB := ⟨[], [c8Booking], 2⟩

def c9Booking : Booking := ⟨4, 5, 1, 600, 30, "Active"⟩

def c9Cancelled : Booking := ⟨6, 5, 1, 300, 30, "Cancelled"⟩

def c9DB : DB := ⟨[], [c9Cancelled, c9Booking], 7⟩

def c10Cabin : Cabin := ⟨1, "A", "", 30, 540, 1140, 1, []⟩

def c10DB : DB := ⟨[c10Cabin], [], 1⟩

/-- Every slot the while-loop emits starts at or after the entry cursor,
strictly before the day end, does not coincide with an active booking's
time, and, on today, lies strictly after "now". -/
theorem mem_daySlotsGo {acts : List Nat} {nowAbs : Nat} {isToday : Bool}
    {step endt : Nat} :
    ∀ {fuel cur t : Nat}, t ∈ daySlotsGo acts nowAbs isToday step endt cur fuel →
      cur ≤ t ∧ t < endt ∧ t ∉ acts ∧ (isToday = true → nowAbs < t) := by
  intro fuel
  induction fuel with
  | zero => intro cur t h; simp [daySlotsGo] at h
  | succ n ih =>
    intro cur t h
    rw [daySlotsGo] at h
    split at h
    · rename_i hlt
      split at h
      · have := ih h; exact ⟨by omega, this.2.1, this.2.2.1, this.2.2.2⟩
      · rename_i hskip
        split at h
        · have := ih h; exact ⟨by omega, this.2.1, this.2.2.1, this.2.2.2⟩
        · rename_i hmem
          rcases List.mem_cons.mp h with rfl | h
          · refine ⟨le_refl _, hlt, hmem, fun hT => ?_⟩
            simp [hT] at hskip
            omega
          · have := ih h; exact ⟨by omega, this.2.1, this.2.2.1, this.2.2.2⟩
    · simp at h

/-- `mem_daySlotsGo` lifted to `daySlots`. -/
theorem mem_daySlots {acts : List Nat} {nowAbs : Nat} {isToday : Bool}
    {cur endt step t : Nat} (h : t ∈ daySlots acts nowAbs isToday cur endt step) :
    cur ≤ t ∧ t < endt ∧ t ∉ acts ∧ (isToday = true → nowAbs < t) := by
  unfold daySlots at h
  split at h
  · exact mem_daySlotsGo h
  · simp at h

/-- A booking satisfying the window filter contributes its `slot_time`. -/
theorem mem_activeTimes {bookings : List Booking} {b : Booking} {cid nowAbs : Nat}
    (hb : b ∈ bookings) (h1 : b.cabin_id = cid) (h2 : b.status = "Active")
    (h3 : nowAbs ≤ b.slot_time) (h4 : b.slot_time ≤ nowAbs + 1440) :
    b.slot_time ∈ activeTimes bookings cid nowAbs :=
  List.mem_map.mpr ⟨b, List.mem_filter.mpr ⟨hb, by simp [activeWindow, *]⟩, rfl⟩

/-- Every entry of the two-day availability map is a day of offset 0 or 1
paired with that day's generated slot list. -/
theorem mem_availCore {cabin : Cabin} {bookings : List Booking} {nowAbs cid d : Nat}
    {l : List Nat} (h : (d, l) ∈ availCore cabin bookings nowAbs cid) :
    ∃ off, off < 2 ∧ d = (nowAbs + off * 1440) / 1440 ∧
      l = daySlots (activeTimes bookings cid nowAbs) nowAbs
        (decide (d = nowAbs / 1440))
        (d * 1440 + cabin.start_time) (d * 1440 + cabin.end_time)
        cabin.slot_duration := by
  simp only [availCore, List.mem_map, List.mem_range] at h
  obtain ⟨off, hoff, heq⟩ := h
  simp only [Prod.mk.injEq] at heq
  exact ⟨off, hoff, heq.1.symm, by rw [← heq.2, heq.1]⟩

/-- With no bookings and no past-skip, the while-loop emits
`floor(span / step)` starts plus one more exactly when a positive
remainder is left before the day end. -/
theorem daySlotsGo_length {nowAbs step endt : Nat} (hstep : 0 < step) :
    ∀ (fuel cur : Nat), endt - cur ≤ fuel →
      (daySlotsGo [] nowAbs false step endt cur fuel).length
        = (endt - cur) / step + (if (endt - cur) % step = 0 then 0 else 1) := by
  intro fuel
  induction fuel with
  | zero =>
    intro cur h
    have h0 : endt - cur = 0 := by omega
    simp [daySlotsGo, h0]
  | succ n ih =>
    intro cur h
    rw [daySlotsGo]
    split
    · rename_i hlt
      rw [if_neg (by simp), if_neg (List.not_mem_nil cur), List.length_cons,
        ih (cur + step) (by omega)]
      have hsub : endt - (cur + step) = endt - cur - step := by omega
      rw [hsub]
      rcases Nat.lt_or_ge (endt - cur) step with hlt2 | hge
      · have h0 : endt - cur - step = 0 := by omega
        rw [h0, Nat.div_eq_of_lt hlt2, Nat.mod_eq_of_lt hlt2]
        have hN : endt - cur ≠ 0 := by omega
        simp [hN]
      · rcases Nat.eq_or_lt_of_le hge with heq | hgt
        · rw [← heq]
          simp [Nat.sub_self, Nat.div_self hstep, Nat.mod_self]
        · rw [Nat.div_eq_sub_div hstep hge, Nat.mod_eq_sub_mod hge]
          omega
    · rename_i hge
      have h0 : endt - cur = 0 := by omega
      simp [h0]

/-- `find?` over a list mapped by an id-preserving cabin transformation is
the mapped `find?`. -/
theorem find?_map_preserve (f : Cabin → Cabin) (hid : ∀ c, (f c).id = c.id)
    (l : List Cabin) (cid : Nat) :
    (l.map f).find? (fun c => decide (c.id = cid)) =
      (l.find? (fun c => decide (c.id = cid))).map f := by
  induction l with
  | nil => rfl
  | cons c cs ih =>
    simp only [List.map_cons, List.find?]
    rw [hid]
    split <;> simp_all

/-- Every row of the cancelled table is an untouched old row or an old
matching row with its status set to "Cancelled". -/
theorem setCancelledFirst_sub {u bid : Nat} : ∀ {l : List Booking} {x : Booking},
    x ∈ setCancelledFirst u bid l →
    x ∈ l ∨ ∃ b ∈ l, cancelMatch u bid b = true ∧
      x = { b with status := "Cancelled" } := by
  intro l
  induction l with
  | nil => intro x h; simp [setCancelledFirst] at h
  | cons b bs ih =>
    intro x h
    unfold setCancelledFirst at h
    split at h
    · rename_i hm
      rcases List.mem_cons.mp h with rfl | h2
      · exact Or.inr ⟨b, List.mem_cons_self b bs, hm, rfl⟩
      · exact Or.inl (List.mem_cons_of_mem _ h2)
    · rcases List.mem_cons.mp h with rfl | h2
      · exact Or.inl (List.mem_cons_self x bs)
      · rcases ih h2 with h3 | ⟨b2, hb2, hm2, hx⟩
        · exact Or.inl (List.mem_cons_of_mem _ h3)
        · exact Or.inr ⟨b2, List.mem_cons_of_mem _ hb2, hm2, hx⟩

/-- The row the cancel query returns appears flipped to "Cancelled" in the
updated table. -/
theorem setCancelledFirst_mem {u bid : Nat} : ∀ {l : List Booking} {b : Booking},
    l.find? (cancelMatch u bid) = some b →
    { b with status := "Cancelled" } ∈ setCancelledFirst u bid l := by
  intro l
  induction l with
  | nil => intro b h; simp at h
  | cons hd tl ih =>
    intro b h
    cases hm : cancelMatch u bid hd with
    | true =>
      rw [List.find?_cons_of_pos _ hm, Option.some.injEq] at h
      subst h
      unfold setCancelledFirst
      rw [if_pos hm]
      exact List.mem_cons_self _ _
    | false =>
      rw [List.find?_cons_of_neg _ (by simp [hm])] at h
      unfold setCancelledFirst
      rw [if_neg (by simp [hm])]
      exact List.mem_cons_of_mem _ (ih h)

/-- C1, counterexample.  The claim says a booking request for a
(cabin, slot_time) pair that already carries an Active booking is always
rejected with no new record.  For a cabin configured with
`max_bookings_per_day = 2`, `book_cabin` accepts a second Active booking at
the exact pair (2, 600) although `c1Booking` is already Active there: the
request succeeds and a second record is created. -/
theorem C1_counterexample :
    (c1Booking ∈ c1DB.bookings ∧ c1Booking.cabin_id = 2 ∧
      c1Booking.slot_time = 600 ∧ c1Booking.status = "Active") ∧
    book_cabin c1DB 0 9 ⟨2, 600, 30⟩ =
      .ok (⟨[c1Cabin], [c1Booking, ⟨2, 9, 2, 600, 30, "Active"⟩], 3⟩,
        ⟨2, 9, 2, 600, 30, "Active"⟩) :=
  ⟨by decide, rfl⟩

/-- C1, amended.  `book_cabin` rejects a request with the 403 Conflict
error exactly when the count of Active bookings at the exact
(cabin, slot_time) has reached the cabin's `max_bookings_per_day`; so for a
cabin whose cap is 1 (the model default) an existing Active booking at the
pair forces the Conflict rejection with no record created, and
`book_selected_slot` never succeeds for a slot carrying an Active booking
inside its [now, now + 1 day] fetch window. -/
theorem C1_theorem :
    (∀ (db : DB) (nowAbs current_user : Nat) (req : BookingCreate) (cabin : Cabin),
      db.cabins.find? (fun c => decide (c.id = req.cabin_id)) = some cabin →
      cabin.max_bookings_per_day = 1 →
      req.slot_time / 1440 ≤ (nowAbs + 7 * 1440) / 1440 →
      (∃ b ∈ db.bookings, b.cabin_id = req.cabin_id ∧ b.slot_time = req.slot_time ∧
        b.status = "Active") →
      book_cabin db nowAbs current_user req =
        .error ⟨403, "This cabin is fully booked for the selected slot"⟩) ∧
    (∀ (db : DB) (nowAbs current_user cabin_id : Nat) (pl : SlotPayload) (t : Nat),
      pl.selected_slot = .time t →
      (∃ b ∈ db.bookings, b.cabin_id = cabin_id ∧ b.slot_time = t ∧
        b.status = "Active" ∧ nowAbs ≤ t ∧ t ≤ nowAbs + 1440) →
      ∀ res, book_selected_slot db nowAbs current_user cabin_id pl ≠ .ok res) := by
  constructor
  · intro db now u req cabin hfind hmax hdate hex
    obtain ⟨b, hb, hbc, hbs, hba⟩ := hex
    simp only [book_cabin, hfind]
    rw [if_neg (by omega)]
    have hmem : b ∈ db.bookings.filter (fun b2 => decide (b2.cabin_id = req.cabin_id ∧
        b2.slot_time = req.slot_time ∧ b2.status = "Active")) :=
      List.mem_filter.mpr ⟨hb, by simp [hbc, hbs, hba]⟩
    have hlen := List.length_pos.mpr (List.ne_nil_of_mem hmem)
    rw [if_pos (by omega)]
  · intro db now u cid pl t hsel hex res hok
    obtain ⟨b, hb, hbc, hbs, hba, hge, hle⟩ := hex
    simp only [book_selected_slot, hsel] at hok
    rw [if_neg (by simp)] at hok
    cases hfind : db.cabins.find? (fun c => decide (c.id = cid)) with
    | none => rw [hfind] at hok; cases hok
    | some cabin =>
      rw [hfind] at hok
      dsimp only at hok
      split at hok
      · cases hok
      split at hok
      · cases hok
      have hav : list_available_slots db now cid =
          .ok ⟨cabin.name, availCore cabin db.bookings now cid⟩ := by
        unfold list_available_slots
        rw [hfind]
      rw [hav] at hok
      dsimp only at hok
      cases hfind2 : (availCore cabin db.bookings now cid).find?
          (fun p => decide (p.1 = t / 1440)) with
      | none => rw [hfind2] at hok; cases hok
      | some p =>
        rw [hfind2] at hok
        dsimp only at hok
        split at hok
        · rename_i hmem2
          have hp : (p.1, p.2) ∈ availCore cabin db.bookings now cid := by
            rw [Prod.mk.eta]
            exact List.mem_of_find?_eq_some hfind2
          obtain ⟨off, hoff, hd, hl⟩ := mem_availCore hp
          rw [hl] at hmem2
          have hm := mem_daySlots hmem2
          exact hm.2.2.1 (hbs ▸ mem_activeTimes hb hbc hba (hbs ▸ hge) (hbs ▸ hle))
        · cases hok

/-- C1, witness: with the default cap 1 the booked pair (1, 600) is
rejected by both endpoints. -/
theorem C1_witness :
    book_cabin c1wDB 0 9 ⟨1, 600, 30⟩ =
      .error ⟨403, "This cabin is fully booked for the selected slot"⟩ ∧
    (∀ res, book_selected_slot c1wDB 0 9 1 ⟨.time 600, none⟩ ≠ .ok res) :=
  ⟨C1_theorem.1 c1wDB 0 9 ⟨1, 600, 30⟩ c1wCabin rfl rfl (by decide) (by decide),
   C1_theorem.2 c1wDB 0 9 1 ⟨.time 600, none⟩ 600 rfl (by decide)⟩

/-- C2, counterexample.  The claim says a user holding an Active booking on
a calendar day is rejected with Conflict when booking a second cabin the
same day.  User 5 holds `c2Booking` (cabin 1, day 0, Active); their request
for cabin 2 at minute 660 of the same day 0 succeeds and a second Active
booking of user 5 on day 0 is created: no endpoint implements a per-user
daily cap. -/
theorem C2_counterexample :
    (c2Booking ∈ c2DB.bookings ∧ c2Booking.user_id = 5 ∧
      c2Booking.status = "Active" ∧ c2Booking.slot_time / 1440 = 660 / 1440 ∧
      c2Booking.cabin_id ≠ 2) ∧
    book_cabin c2DB 0 5 ⟨2, 660, 30⟩ =
      .ok (⟨[c2CabinA, c2CabinB], [c2Booking, ⟨2, 5, 2, 660, 30, "Active"⟩], 3⟩,
        ⟨2, 5, 2, 660, 30, "Active"⟩) :=
  ⟨by decide, rfl⟩

/-- C2, amended.  Neither booking endpoint consults the acting user's other
bookings: whenever the cabin exists, the slot is inside the 7-day horizon
and the (cabin, slot_time) occupancy is below the cabin's cap, `book_cabin`
succeeds even though the user already holds an Active booking on the same
calendar day at another cabin. -/
theorem C2_theorem : ∀ (db : DB) (nowAbs u : Nat) (req : BookingCreate)
    (cabin : Cabin) (b : Booking),
    db.cabins.find? (fun c => decide (c.id = req.cabin_id)) = some cabin →
    req.slot_time / 1440 ≤ (nowAbs + 7 * 1440) / 1440 →
    (db.bookings.filter (fun b2 => decide (b2.cabin_id = req.cabin_id ∧
      b2.slot_time = req.slot_time ∧ b2.status = "Active"))).length <
        cabin.max_bookings_per_day →
    b ∈ db.bookings → b.user_id = u → b.status = "Active" →
    b.slot_time / 1440 = req.slot_time / 1440 → b.cabin_id ≠ req.cabin_id →
    book_cabin db nowAbs u req =
      .ok (⟨db.cabins, db.bookings ++ [⟨db.next_booking_id, u, req.cabin_id,
          req.slot_time, req.duration, "Active"⟩], db.next_booking_id + 1⟩,
        ⟨db.next_booking_id, u, req.cabin_id, req.slot_time, req.duration,
          "Active"⟩) := by
  intro db now u req cabin b hfind hdate hcount hb hbu hbs hbd hbc
  simp only [book_cabin, hfind]
  rw [if_neg (by omega), if_neg (by omega)]

/-- C2, witness: the counterexample state satisfies every hypothesis, so the
same-day request for the other cabin goes through. -/
theorem C2_witness :
    book_cabin c2DB 0 5 ⟨2, 660, 30⟩ =
      .ok (⟨[c2CabinA, c2CabinB], [c2Booking, ⟨2, 5, 2, 660, 30, "Active"⟩], 3⟩,
        ⟨2, 5, 2, 660, 30, "Active"⟩) :=
  C2_theorem c2DB 0 5 ⟨2, 660, 30⟩ c2CabinB c2Booking rfl (by decide) (by decide)
    (by decide) rfl rfl (by decide) (by decide)

/-- C3, counterexample.  The claim says no generated slot starts inside a
configured restricted window; for the cabin with restricted window
"13:00-14:00" the availability listing at 01:40 "now" does produce today's
slots starting at 13:00 (minute 780) and 13:30 (minute 810): the routes
never read `restricted_times`. -/
theorem C3_counterexample :
    780 ∈ slotsOnDay (list_available_slots c3DB 100 3) 0 ∧
    810 ∈ slotsOnDay (list_available_slots c3DB 100 3) 0 :=
  ⟨by decide, by decide⟩

/-- C3, amended.  The availability computation is invariant under replacing
every cabin's `restricted_times` by anything whatsoever: blackout windows
are stored but never consulted, so they never remove a slot. -/
theorem C3_theorem : ∀ (db : DB) (nowAbs cabin_id : Nat) (rts : List String),
    list_available_slots (withRestricted rts db) nowAbs cabin_id =
      list_available_slots db nowAbs cabin_id := by
  intro db now cid rts
  unfold list_available_slots
  rw [show (withRestricted rts db).cabins
        = db.cabins.map (fun c => { c with restricted_times := rts }) from rfl,
      find?_map_preserve (fun c => { c with restricted_times := rts }) (fun c => rfl),
      show (withRestricted rts db).bookings = db.bookings from rfl]
  cases db.cabins.find? (fun c => decide (c.id = cid)) <;> rfl

/-- C4, counterexample.  The claim says the generator emits
`floor((end-start)/d)` full slots plus a final partial slot whose duration
equals the remainder.  For hours 540-615 with d = 30 the listing indeed
emits three starts (540, 570, 600), but the trailing slot carries no
remainder duration at all: booking it through the endpoint records the full
30-minute `slot_duration`, not the 15-minute remainder. -/
theorem C4_counterexample :
    slotsOnDay (list_available_slots c4DB 100 1) 0 = [540, 570, 600] ∧
    (615 - 540) % 30 = 15 ∧
    book_selected_slot c4DB 100 7 1 ⟨.time 600, none⟩ =
      .ok (⟨[c4Cabin], [⟨1, 7, 1, 600, 30, "Active"⟩], 2⟩, ⟨"A", 600, 30⟩) ∧
    (30 : Nat) ≠ 15 :=
  ⟨rfl, rfl, rfl, by decide⟩

/-- C4, amended.  For a cabin with no bookings, tomorrow's generated list
(where no past-skip applies) has exactly
`floor(span / d) + (1 iff span mod d ≠ 0)` slot starts, `span` being
`end_time - start_time`; the slots are bare start times with no individual
durations. -/
theorem C4_theorem : ∀ (db : DB) (nowAbs cabin_id : Nat) (cabin : Cabin)
    (out : AvailOut),
    db.cabins.find? (fun c => decide (c.id = cabin_id)) = some cabin →
    db.bookings = [] →
    0 < cabin.slot_duration →
    list_available_slots db nowAbs cabin_id = .ok out →
    ∃ l, (nowAbs / 1440 + 1, l) ∈ out.available_slots ∧
      l.length = (cabin.end_time - cabin.start_time) / cabin.slot_duration +
        (if (cabin.end_time - cabin.start_time) % cabin.slot_duration = 0
          then 0 else 1) := by
  intro db now cid cabin out hfind hemp hd hok
  unfold list_available_slots at hok
  rw [hfind] at hok
  cases hok
  refine ⟨daySlots (activeTimes db.bookings cid now) now
      (decide ((now / 1440 + 1) = now / 1440))
      ((now / 1440 + 1) * 1440 + cabin.start_time)
      ((now / 1440 + 1) * 1440 + cabin.end_time) cabin.slot_duration, ?_, ?_⟩
  · show ((now / 1440 + 1 : Nat), _) ∈ availCore cabin db.bookings now cid
    simp only [availCore, List.mem_map, List.mem_range]
    refine ⟨1, by omega, ?_⟩
    simp only [Prod.mk.injEq]
    constructor
    · rw [Nat.one_mul, Nat.add_div_right _ (by omega)]
    · rw [Nat.one_mul, Nat.add_div_right _ (by omega)]
  · rw [hemp]
    have hflag : decide ((now / 1440 + 1) = now / 1440) = false := by simp
    rw [hflag]
    have hacts : activeTimes [] cid now = [] := rfl
    rw [hacts]
    unfold daySlots
    rw [if_pos hd, daySlotsGo_length hd _ _ (le_refl _)]
    have hsub : (now / 1440 + 1) * 1440 + cabin.end_time -
        ((now / 1440 + 1) * 1440 + cabin.start_time) =
        cabin.end_time - cabin.start_time := by omega
    rw [hsub]

/-- C4, witness: hours 540-615, d = 30, no bookings: tomorrow's list has
75 / 30 + 1 = 3 starts. -/
theorem C4_witness :
    ∃ l, (100 / 1440 + 1, l) ∈
        (AvailOut.mk "A"
          [(0, [540, 570, 600]), (1, [1980, 2010, 2040])]).available_slots ∧
      l.length = (615 - 540) / 30 + (if (615 - 540) % 30 = 0 then 0 else 1) :=
  C4_theorem c4DB 100 1 c4Cabin
    ⟨"A", [(0, [540, 570, 600]), (1, [1980, 2010, 2040])]⟩
    rfl rfl (by decide) rfl

/-- C5, counterexample.  The claim says the output labels every generated
slot (booked / past / available) and in particular contains today's 09:00
slot marked past at a 09:05 "now".  The listing carries no labels: at
"now" = minute 545 (09:05 of day 0) the 09:00 slot (minute 540) is absent
from the output altogether, while 09:30 (minute 570) is present. -/
theorem C5_counterexample :
    540 ∉ slotsOnDay (list_available_slots c5DB 545 1) 0 ∧
    570 ∈ slotsOnDay (list_available_slots c5DB 545 1) 0 :=
  ⟨by decide, by decide⟩

/-- C5, amended.  Past and booked slots are omitted rather than labeled:
every slot the listing outputs for today starts strictly after "now", and
no output slot of either day coincides with an Active booking of the cabin
inside the [now, now + 1 day] fetch window. -/
theorem C5_theorem : ∀ (db : DB) (nowAbs cabin_id : Nat) (out : AvailOut)
    (d : Nat) (l : List Nat) (t : Nat),
    list_available_slots db nowAbs cabin_id = .ok out →
    (d, l) ∈ out.available_slots → t ∈ l →
    (d = nowAbs / 1440 → nowAbs < t) ∧
    (∀ b ∈ db.bookings, b.cabin_id = cabin_id → b.status = "Active" →
      nowAbs ≤ b.slot_time → b.slot_time ≤ nowAbs + 1440 → b.slot_time ≠ t) := by
  intro db now cid out d l t hok hmem ht
  unfold list_available_slots at hok
  cases hfind : db.cabins.find? (fun c => decide (c.id = cid)) with
  | none => rw [hfind] at hok; cases hok
  | some cabin =>
    rw [hfind] at hok
    cases hok
    obtain ⟨off, hoff, hd, hl⟩ := mem_availCore hmem
    rw [hl] at ht
    have hm := mem_daySlots ht
    constructor
    · intro hday
      exact hm.2.2.2 (by simp [hday])
    · intro b hb hcid hst hge hle heq
      exact hm.2.2.1 (heq ▸ mem_activeTimes hb hcid hst hge hle)

/-- C5, witness: for the small cabin open 540-600 at "now" = 545 the
listed today slot 570 is in the future and unbooked. -/
theorem C5_witness :
    ((0 : Nat) = 545 / 1440 → 545 < 570) ∧
    (∀ b ∈ c5wDB.bookings, b.cabin_id = 1 → b.status = "Active" →
      545 ≤ b.slot_time → b.slot_time ≤ 545 + 1440 → b.slot_time ≠ 570) :=
  C5_theorem c5wDB 545 1 ⟨"A", [(0, [570]), (1, [1980, 2010])]⟩ 0 [570] 570
    rfl (by decide) (by decide)

/-- C6: availability is a pure read.  The route body contains no insert or
update, so in the embedding it returns no modified state at all; this
theorem states the complementary fact that its output is a function of the
cabins and bookings tables alone (in particular it does not depend on the
autoincrement counter), so two computations against the same "now" and the
same booking set yield identical output. -/
theorem C6_theorem : ∀ (db db2 : DB) (nowAbs cabin_id : Nat),
    db.cabins = db2.cabins → db.bookings = db2.bookings →
    list_available_slots db nowAbs cabin_id =
      list_available_slots db2 nowAbs cabin_id := by
  intro ⟨c, b, n⟩ ⟨c2, b2, n2⟩ now cid hc hb
  simp only at hc hb
  subst hc; subst hb
  rfl

/-- C6, witness: two states equal up to the autoincrement counter produce
the same availability. -/
theorem C6_witness :
    list_available_slots ⟨[c6Cabin], [], 1⟩ 100 1 =
      list_available_slots ⟨[c6Cabin], [], 99⟩ 100 1 :=
  C6_theorem _ _ 100 1 rfl rfl

/-- C7, counterexample.  The claim says every created booking's duration
equals the duration supplied by the caller.  A book-selected-slot request
whose payload carries duration 45 succeeds with a booking of duration 30:
the route ignores the payload's duration and always records the cabin's
fixed `slot_duration`. -/
theorem C7_counterexample :
    book_selected_slot c7DB 100 7 1 ⟨.time 540, some 45⟩ =
      .ok (⟨[c7Cabin], [⟨1, 7, 1, 540, 30, "Active"⟩], 2⟩, ⟨"A", 540, 30⟩) ∧
    (30 : Int) ≠ 45 :=
  ⟨rfl, by decide⟩

/-- C7, amended.  A successful `book_cabin` creates an Active booking owned
by the acting user, for the requested cabin and slot, with exactly the
caller-supplied duration appended to the table; a successful
`book_selected_slot` creates an Active booking owned by the acting user
whose duration is the cabin's `slot_duration`, and its result never depends
on a duration field in the payload. -/
theorem C7_theorem :
    (∀ (db : DB) (nowAbs current_user : Nat) (req : BookingCreate)
      (db2 : DB) (nb : Booking),
      book_cabin db nowAbs current_user req = .ok (db2, nb) →
      nb.status = "Active" ∧ nb.user_id = current_user ∧
        nb.cabin_id = req.cabin_id ∧ nb.slot_time = req.slot_time ∧
        nb.duration = req.duration ∧ db2.bookings = db.bookings ++ [nb]) ∧
    (∀ (db : DB) (nowAbs current_user cabin_id : Nat) (pl : SlotPayload)
      (db2 : DB) (det : BookingDetails),
      book_selected_slot db nowAbs current_user cabin_id pl = .ok (db2, det) →
      ∃ nb cabin, db.cabins.find? (fun c => decide (c.id = cabin_id)) = some cabin ∧
        db2.bookings = db.bookings ++ [nb] ∧ nb.status = "Active" ∧
        nb.user_id = current_user ∧ nb.cabin_id = cabin_id ∧
        nb.duration = (cabin.slot_duration : Int) ∧
        det.duration = cabin.slot_duration) ∧
    (∀ (db : DB) (nowAbs current_user cabin_id : Nat) (sel : SlotField)
      (d1 d2 : Option Int),
      book_selected_slot db nowAbs current_user cabin_id ⟨sel, d1⟩ =
        book_selected_slot db nowAbs current_user cabin_id ⟨sel, d2⟩) := by
  refine ⟨?_, ?_, ?_⟩
  · intro db now u req db2 nb hok
    simp only [book_cabin] at hok
    cases hfind : db.cabins.find? (fun c => decide (c.id = req.cabin_id)) with
    | none => rw [hfind] at hok; cases hok
    | some cabin =>
      rw [hfind] at hok
      dsimp only at hok
      split at hok
      · cases hok
      split at hok
      · cases hok
      rw [Except.ok.injEq, Prod.mk.injEq] at hok
      obtain ⟨h1, h2⟩ := hok
      subst h1; subst h2
      exact ⟨rfl, rfl, rfl, rfl, rfl, rfl⟩
  · intro db now u cid pl db2 det hok
    cases hsel : pl.selected_slot with
    | missing => simp [book_selected_slot, hsel] at hok
    | malformed =>
      simp only [book_selected_slot, hsel] at hok
      rw [if_neg (by simp)] at hok
      cases hfind : db.cabins.find? (fun c => decide (c.id = cid)) with
      | none => rw [hfind] at hok; cases hok
      | some cabin => rw [hfind] at hok; cases hok
    | time t =>
      simp only [book_selected_slot, hsel] at hok
      rw [if_neg (by simp)] at hok
      cases hfind : db.cabins.find? (fun c => decide (c.id = cid)) with
      | none => rw [hfind] at hok; cases hok
      | some cabin =>
        rw [hfind] at hok
        dsimp only at hok
        split at hok
        · cases hok
        split at hok
        · cases hok
        have hav : list_available_slots db now cid =
            .ok ⟨cabin.name, availCore cabin db.bookings now cid⟩ := by
          unfold list_available_slots
          rw [hfind]
        rw [hav] at hok
        dsimp only at hok
        cases hfind2 : (availCore cabin db.bookings now cid).find?
            (fun p => decide (p.1 = t / 1440)) with
        | none => rw [hfind2] at hok; cases hok
        | some p =>
          rw [hfind2] at hok
          dsimp only at hok
          split at hok
          · rw [Except.ok.injEq, Prod.mk.injEq] at hok
            obtain ⟨h1, h2⟩ := hok
            subst h1; subst h2
            exact ⟨_, cabin, rfl, rfl, rfl, rfl, rfl, rfl, rfl⟩
          · cases hok
  · intro db now u cid sel d1 d2
    rfl

/-- C7, witness: a direct booking of cabin 1 at slot 600 with caller
duration 25 records exactly those fields. -/
theorem C7_witness :
    (⟨1, 5, 1, 600, 25, "Active"⟩ : Booking).status = "Active" ∧
    (⟨1, 5, 1, 600, 25, "Active"⟩ : Booking).user_id = 5 ∧
    (⟨1, 5, 1, 600, 25, "Active"⟩ : Booking).cabin_id = 1 ∧
    (⟨1, 5, 1, 600, 25, "Active"⟩ : Booking).slot_time = 600 ∧
    (⟨1, 5, 1, 600, 25, "Active"⟩ : Booking).duration = 25 ∧
    (⟨[c7wCabin], [⟨1, 5, 1, 600, 25, "Active"⟩], 2⟩ : DB).bookings =
      c7wDB.bookings ++ [⟨1, 5, 1, 600, 25, "Active"⟩] :=
  C7_theorem.1 c7wDB 0 5 ⟨1, 600, 25⟩ _ _ rfl

/-- C8: the listing's "active" bucket holds exactly the user's Active
bookings with `slot_time ≥ now`, the "past" bucket exactly the user's
bookings with `slot_time < now` regardless of status, and a Cancelled
booking with a future `slot_time` lands in neither bucket. -/
theorem C8_theorem : ∀ (db : DB) (nowAbs current_user : Nat) (b : Booking),
    (b ∈ (list_user_bookings db nowAbs current_user).active_bookings ↔
      b ∈ db.bookings ∧ b.user_id = current_user ∧ b.status = "Active" ∧
        nowAbs ≤ b.slot_time) ∧
    (b ∈ (list_user_bookings db nowAbs current_user).past_bookings ↔
      b ∈ db.bookings ∧ b.user_id = current_user ∧ b.slot_time < nowAbs) ∧
    (b.status = "Cancelled" → nowAbs ≤ b.slot_time →
      b ∉ (list_user_bookings db nowAbs current_user).active_bookings ∧
      b ∉ (list_user_bookings db nowAbs current_user).past_bookings) := by
  intro db now u b
  have h1 : b ∈ (list_user_bookings db now u).active_bookings ↔
      b ∈ db.bookings ∧ b.user_id = u ∧ b.status = "Active" ∧ now ≤ b.slot_time := by
    simp [list_user_bookings, List.mem_filter]
  have h2 : b ∈ (list_user_bookings db now u).past_bookings ↔
      b ∈ db.bookings ∧ b.user_id = u ∧ b.slot_time < now := by
    simp [list_user_bookings, List.mem_filter]
  refine ⟨h1, h2, fun hc hf => ⟨fun hm => ?_, fun hm => ?_⟩⟩
  · obtain ⟨-, -, hst, -⟩ := h1.mp hm
    rw [hc] at hst
    exact absurd hst (by decide)
  · obtain ⟨-, -, hlt⟩ := h2.mp hm
    omega

/-- C8, witness: the future Cancelled booking `c8Booking` is in neither
bucket. -/
theorem C8_witness :
    c8Booking ∉ (list_user_bookings c8DB 0 5).active_bookings ∧
    c8Booking ∉ (list_user_bookings c8DB 0 5).past_bookings :=
  (C8_theorem c8DB 0 5 c8Booking).2.2 rfl (by decide)

/-- C9: when no booking matches (wrong id, not owned by the caller, or not
Active — which covers already-Cancelled), cancellation reports the single
404 NotFound error and nothing changes; when the query finds an owned
Active booking, cancellation succeeds and the new table is the old one with
that booking's status flipped to "Cancelled" (every new row is an old row
or an old owned-Active matching row so flipped). -/
theorem C9_theorem : ∀ (db : DB) (current_user booking_id : Nat),
    ((∀ b ∈ db.bookings, ¬(b.id = booking_id ∧ b.user_id = current_user ∧
        b.status = "Active")) →
      cancel_user_booking db current_user booking_id =
        .error ⟨404, "Booking not found or already cancelled"⟩) ∧
    (∀ b, db.bookings.find? (cancelMatch current_user booking_id) = some b →
      b ∈ db.bookings ∧ b.id = booking_id ∧ b.user_id = current_user ∧
        b.status = "Active" ∧
      ∃ db2, cancel_user_booking db current_user booking_id =
          .ok (db2, "Your booking has been cancelled successfully") ∧
        db2.cabins = db.cabins ∧
        { b with status := "Cancelled" } ∈ db2.bookings ∧
        ∀ x ∈ db2.bookings, x ∈ db.bookings ∨
          ∃ b2 ∈ db.bookings, b2.id = booking_id ∧ b2.user_id = current_user ∧
            b2.status = "Active" ∧ x = { b2 with status := "Cancelled" }) := by
  intro db u bid
  constructor
  · intro hno
    have hnone : db.bookings.find? (cancelMatch u bid) = none := by
      rw [List.find?_eq_none]
      intro b hb
      simp only [cancelMatch, decide_eq_true_eq]
      exact hno b hb
    unfold cancel_user_booking
    rw [hnone]
  · intro b hfind
    have hb := List.mem_of_find?_eq_some hfind
    have hp := List.find?_some hfind
    simp only [cancelMatch, decide_eq_true_eq] at hp
    refine ⟨hb, hp.1, hp.2.1, hp.2.2, ?_⟩
    refine ⟨⟨db.cabins, setCancelledFirst u bid db.bookings, db.next_booking_id⟩,
      ?_, rfl, ?_, ?_⟩
    · unfold cancel_user_booking
      rw [hfind]
    · exact setCancelledFirst_mem hfind
    · intro x hx
      rcases setCancelledFirst_sub hx with h | ⟨b2, hb2, hm2, hxe⟩
      · exact Or.inl h
      · simp only [cancelMatch, decide_eq_true_eq] at hm2
        exact Or.inr ⟨b2, hb2, hm2.1, hm2.2.1, hm2.2.2, hxe⟩

/-- C9, witness: cancelling the already-Cancelled booking 6 reports the 404
error, and cancelling the owned Active booking 4 flips it. -/
theorem C9_witness :
    (cancel_user_booking c9DB 5 6 =
      .error ⟨404, "Booking not found or already cancelled"⟩) ∧
    (c9Booking ∈ c9DB.bookings ∧ c9Booking.id = 4 ∧ c9Booking.user_id = 5 ∧
      c9Booking.status = "Active" ∧
      ∃ db2, cancel_user_booking c9DB 5 4 =
          .ok (db2, "Your booking has been cancelled successfully") ∧
        db2.cabins = c9DB.cabins ∧
        { c9Booking with status := "Cancelled" } ∈ db2.bookings ∧
        ∀ x ∈ db2.bookings, x ∈ c9DB.bookings ∨
          ∃ b2 ∈ c9DB.bookings, b2.id = 4 ∧ b2.user_id = 5 ∧
            b2.status = "Active" ∧ x = { b2 with status := "Cancelled" }) :=
  ⟨(C9_theorem c9DB 5 6).1 (by decide),
   (C9_theorem c9DB 5 4).2 c9Booking (by decide)⟩

/-- C10: for a direct booking (`book_cabin`), a slot whose date is more
than 7 days after today is rejected with the 400 error whatever the
bookings table contains (so before any conflict check), a date within the
7-day horizon never draws that error, and `book_selected_slot` rejects any
date from 2 days out with its today-or-tomorrow error — a strictly tighter
horizon. -/
theorem C10_theorem : ∀ (db : DB) (nowAbs current_user : Nat)
    (req : BookingCreate) (cabin : Cabin),
    db.cabins.find? (fun c => decide (c.id = req.cabin_id)) = some cabin →
    (((nowAbs + 7 * 1440) / 1440 < req.slot_time / 1440 →
      ∀ bs : List Booking,
        book_cabin ⟨db.cabins, bs, db.next_booking_id⟩ nowAbs current_user req =
          .error ⟨400, "You can only book for the next 7 days"⟩) ∧
    (req.slot_time / 1440 ≤ (nowAbs + 7 * 1440) / 1440 →
      book_cabin db nowAbs current_user req ≠
        .error ⟨400, "You can only book for the next 7 days"⟩) ∧
    (nowAbs / 1440 + 2 ≤ req.slot_time / 1440 →
      ∀ dOpt : Option Int,
        book_selected_slot db nowAbs current_user req.cabin_id
          ⟨.time req.slot_time, dOpt⟩ =
        .error ⟨400, "You can only book slots for today or tomorrow"⟩)) := by
  intro db now u req cabin hfind
  refine ⟨?_, ?_, ?_⟩
  · intro hlate bs
    simp only [book_cabin]
    rw [show (⟨db.cabins, bs, db.next_booking_id⟩ : DB).cabins = db.cabins from rfl,
      hfind]
    dsimp only
    rw [if_pos hlate]
  · intro hin hcontra
    simp only [book_cabin, hfind] at hcontra
    rw [if_neg (by omega)] at hcontra
    split at hcontra
    · simp at hcontra
    · cases hcontra
  · intro hfar dOpt
    simp only [book_selected_slot]
    rw [if_neg (by simp), hfind]
    dsimp only
    rw [if_pos (by omega)]

/-- C10, witness: at "now" = 0 a slot on day 8 draws the 7-day error from
`book_cabin`, a slot on day 0 does not, and a slot on day 3 draws the
today-or-tomorrow error from `book_selected_slot`. -/
theorem C10_witness :
    book_cabin c10DB 0 9 ⟨1, 11520, 30⟩ =
      .error ⟨400, "You can only book for the next 7 days"⟩ ∧
    book_cabin c10DB 0 9 ⟨1, 600, 30⟩ ≠
      .error ⟨400, "You can only book for the next 7 days"⟩ ∧
    book_selected_slot c10DB 0 9 1 ⟨.time 4320, none⟩ =
      .error ⟨400, "You can only book slots for today or tomorrow"⟩ :=
  ⟨(C10_theorem c10DB 0 9 ⟨1, 11520, 30⟩ c10Cabin rfl).1 (by decide) [],
   (C10_theorem c10DB 0 9 ⟨1, 600, 30⟩ c10Cabin rfl).2.1 (by decide),
   (C10_theorem c10DB 0 9 ⟨1, 4320, 30⟩ c10Cabin rfl).2.2 (by decide) none⟩

end CabinBooking
